import Mathlib

/-!
Shallow embedding of the tokio-serial crate (src/lib.rs).

The crate wraps a mio_serial device handle inside a tokio_reactor
PollEvented readiness wrapper and exposes it as the Serial bridge.
The device handle and the readiness wrapper are external collaborators;
they are modelled at their boundaries (an abstract device state machine
for data and configuration operations, and a resource-accounting world
for construction and registration).  The Serial facade, the constructors
and the async/sync I/O surface are translated from src/lib.rs.
-/

namespace TokioSerial

/-- Duration from std::time, modelled as a count of nanoseconds. -/
abbrev Duration := Nat

/-- Error kinds of std::io::ErrorKind that this development distinguishes. -/
inductive IOErrorKind where
  | wouldBlock
  | notFound
  | permissionDenied
  | timedOut
  | other (code : Nat)
deriving DecidableEq

/-- std::io::Error, identified by its kind. -/
structure IOError where
  kind : IOErrorKind
deriving DecidableEq

/-- mio_serial::ErrorKind: NoDevice, InvalidInput, Unknown, or a wrapped io kind.
Note the taxonomy has no UseAfterShutdown, UseAfterClose or
UnsupportedOperation variant. -/
inductive SPErrorKind where
  | noDevice
  | invalidInput
  | unknown
  | ioKind (k : IOErrorKind)
deriving DecidableEq

/-- mio_serial::Error, identified by its kind. -/
structure SPError where
  kind : SPErrorKind
deriving DecidableEq

/-- Conversion io::Error to mio_serial::Error (the From impl used by `?`). -/
def IOError.toSpErr (e : IOError) : SPError :=
  ⟨SPErrorKind.ioKind e.kind⟩

/-- Conversion mio_serial::Error to io::Error (the From impl used by `?`
in from_path, keeping the io kind where there is one). -/
def SPError.toIoErr (e : SPError) : IOError :=
  match e.kind with
  | SPErrorKind.ioKind k => ⟨k⟩
  | SPErrorKind.noDevice => ⟨IOErrorKind.notFound⟩
  | SPErrorKind.invalidInput => ⟨IOErrorKind.other 0⟩
  | SPErrorKind.unknown => ⟨IOErrorKind.other 1⟩

/-- serialport DataBits. -/
inductive DataBits where
  | five
  | six
  | seven
  | eight
deriving DecidableEq

/-- serialport Parity. -/
inductive Parity where
  | none
  | odd
  | even
deriving DecidableEq

/-- serialport StopBits. -/
inductive StopBits where
  | one
  | two
deriving DecidableEq

/-- serialport FlowControl. -/
inductive FlowControl where
  | none
  | software
  | hardware
deriving DecidableEq

/-- serialport ClearBuffer. -/
inductive ClearBuffer where
  | input
  | output
  | all
deriving DecidableEq

/-- mio_serial::SerialPortSettings: the device configuration record. -/
structure SerialPortSettings where
  baud_rate : Nat
  data_bits : DataBits
  flow_control : FlowControl
  parity : Parity
  stop_bits : StopBits
  timeout : Duration
deriving DecidableEq

/-- Async poll outcome: futures::Async. `ready` resolves the call,
`notReady` suspends the calling task. -/
inductive Poll (α : Type) where
  | ready (a : α)
  | notReady
deriving DecidableEq

/-- Modelled from the spec: the Device Handle external collaborator
(spec section 6 boundary), absent from src/.  An abstract device state type
δ together with the operations mio_serial::Serial exposes; queries taking
&self are pure on the state, operations taking &mut self also return the
successor state.  `read`/`write`/`flush` are the non-blocking attempt
operations; a would-block outcome is an error of kind `wouldBlock`,
as on a non-blocking OS handle. -/
structure DeviceModel (δ : Type) where
  settings : δ → SerialPortSettings
  name : δ → Option String
  baud_rate : δ → Except SPError Nat
  data_bits : δ → Except SPError DataBits
  flow_control : δ → Except SPError FlowControl
  parity : δ → Except SPError Parity
  stop_bits : δ → Except SPError StopBits
  set_all : δ → SerialPortSettings → Except SPError Unit × δ
  set_baud_rate : δ → Nat → Except SPError Unit × δ
  set_data_bits : δ → DataBits → Except SPError Unit × δ
  set_flow_control : δ → FlowControl → Except SPError Unit × δ
  set_parity : δ → Parity → Except SPError Unit × δ
  set_stop_bits : δ → StopBits → Except SPError Unit × δ
  write_request_to_send : δ → Bool → Except SPError Unit × δ
  write_data_terminal_ready : δ → Bool → Except SPError Unit × δ
  read_clear_to_send : δ → Except SPError Bool × δ
  read_data_set_ready : δ → Except SPError Bool × δ
  read_ring_indicator : δ → Except SPError Bool × δ
  read_carrier_detect : δ → Except SPError Bool × δ
  bytes_to_read : δ → Except SPError Nat
  bytes_to_write : δ → Except SPError Nat
  clear : δ → ClearBuffer → Except SPError Unit
  try_clone : δ → Except SPError Nat
  read : δ → Nat → Except IOError Nat × δ
  write : δ → List Nat → Except IOError Nat × δ
  flush : δ → Except IOError Unit × δ
  set_exclusive : δ → Bool → Except SPError Unit × δ
  exclusive : δ → Bool

/-- Modelled from the spec: the readiness wrapper tokio_reactor::PollEvented
(the Readiness Registration collaborator of spec section 2/6), absent from
src/.  It owns the device state plus the cached read/write readiness the
reactor reported for the registered handle. -/
structure PollEvented (δ : Type) where
  inner : δ
  readReady : Bool
  writeReady : Bool

/-- PollEvented::get_ref: a shared borrow of the wrapped device. -/
def PollEvented.get_ref {δ : Type} (pe : PollEvented δ) : δ :=
  pe.inner

/-- PollEvented::get_mut: a mutable borrow of the wrapped device. -/
def PollEvented.get_mut {δ : Type} (pe : PollEvented δ) : δ :=
  pe.inner

/-- Replace the wrapped device after a mutable borrow was used; the
readiness state of the wrapper is untouched. -/
def PollEvented.putInner {δ : Type} (pe : PollEvented δ) (d : δ) : PollEvented δ :=
  { pe with inner := d }

/-- src/lib.rs: `pub struct Serial { io: PollEvented<mio_serial::Serial> }`. -/
structure Serial (δ : Type) where
  io : PollEvented δ

/-- Replace the device inside a bridge after a mutable borrow. -/
def Serial.putInner {δ : Type} (s : Serial δ) (d : δ) : Serial δ :=
  ⟨s.io.putInner d⟩

/-- src/lib.rs line 129: `fn settings(&self)` delegates to get_ref. -/
def Serial.settings {δ : Type} (M : DeviceModel δ) (s : Serial δ) : SerialPortSettings :=
  M.settings s.io.get_ref

/-- src/lib.rs line 133: `fn name(&self)` delegates to get_ref. -/
def Serial.name {δ : Type} (M : DeviceModel δ) (s : Serial δ) : Option String :=
  M.name s.io.get_ref

/-- src/lib.rs line 137: `fn baud_rate(&self)` delegates to get_ref. -/
def Serial.baud_rate {δ : Type} (M : DeviceModel δ) (s : Serial δ) : Except SPError Nat :=
  M.baud_rate s.io.get_ref

/-- src/lib.rs line 141: `fn data_bits(&self)` delegates to get_ref. -/
def Serial.data_bits {δ : Type} (M : DeviceModel δ) (s : Serial δ) : Except SPError DataBits :=
  M.data_bits s.io.get_ref

/-- src/lib.rs line 145: `fn flow_control(&self)` delegates to get_ref. -/
def Serial.flow_control {δ : Type} (M : DeviceModel δ) (s : Serial δ) : Except SPError FlowControl :=
  M.flow_control s.io.get_ref

/-- src/lib.rs line 149: `fn parity(&self)` delegates to get_ref. -/
def Serial.parity {δ : Type} (M : DeviceModel δ) (s : Serial δ) : Except SPError Parity :=
  M.parity s.io.get_ref

/-- src/lib.rs line 153: `fn stop_bits(&self)` delegates to get_ref. -/
def Serial.stop_bits {δ : Type} (M : DeviceModel δ) (s : Serial δ) : Except SPError StopBits :=
  M.stop_bits s.io.get_ref

/-- src/lib.rs lines 157-159: `fn timeout(&self)` returns
`Duration::from_secs(0)` without consulting the device. -/
def Serial.timeout {δ : Type} (_s : Serial δ) : Duration :=
  0

/-- src/lib.rs line 161: `fn set_all(&mut self, ...)` delegates to get_mut. -/
def Serial.set_all {δ : Type} (M : DeviceModel δ) (s : Serial δ)
    (cfg : SerialPortSettings) : Except SPError Unit × Serial δ :=
  let r := M.set_all s.io.get_mut cfg
  (r.1, s.putInner r.2)

/-- src/lib.rs line 165: `fn set_baud_rate(&mut self, ...)` delegates to get_mut. -/
def Serial.set_baud_rate {δ : Type} (M : DeviceModel δ) (s : Serial δ)
    (b : Nat) : Except SPError Unit × Serial δ :=
  let r := M.set_baud_rate s.io.get_mut b
  (r.1, s.putInner r.2)

/-- src/lib.rs line 169: `fn set_data_bits(&mut self, ...)` delegates to get_mut. -/
def Serial.set_data_bits {δ : Type} (M : DeviceModel δ) (s : Serial δ)
    (db : DataBits) : Except SPError Unit × Serial δ :=
  let r := M.set_data_bits s.io.get_mut db
  (r.1, s.putInner r.2)

/-- src/lib.rs line 173: `fn set_flow_control(&mut self, ...)` delegates to get_mut. -/
def Serial.set_flow_control {δ : Type} (M : DeviceModel δ) (s : Serial δ)
    (fc : FlowControl) : Except SPError Unit × Serial δ :=
  let r := M.set_flow_control s.io.get_mut fc
  (r.1, s.putInner r.2)

/-- src/lib.rs line 177: `fn set_parity(&mut self, ...)` delegates to get_mut. -/
def Serial.set_parity {δ : Type} (M : DeviceModel δ) (s : Serial δ)
    (p : Parity) : Except SPError Unit × Serial δ :=
  let r := M.set_parity s.io.get_mut p
  (r.1, s.putInner r.2)

/-- src/lib.rs line 181: `fn set_stop_bits(&mut self, ...)` delegates to get_mut. -/
def Serial.set_stop_bits {δ : Type} (M : DeviceModel δ) (s : Serial δ)
    (sb : StopBits) : Except SPError Unit × Serial δ :=
  let r := M.set_stop_bits s.io.get_mut sb
  (r.1, s.putInner r.2)

/-- src/lib.rs lines 185-187: `fn set_timeout(&mut self, _)` ignores its
argument, touches no state and returns Ok. -/
def Serial.set_timeout {δ : Type} (s : Serial δ) (_d : Duration) :
    Except SPError Unit × Serial δ :=
  (Except.ok (), s)

/-- src/lib.rs line 189: `fn write_request_to_send(&mut self, ...)`. -/
def Serial.write_request_to_send {δ : Type} (M : DeviceModel δ) (s : Serial δ)
    (level : Bool) : Except SPError Unit × Serial δ :=
  let r := M.write_request_to_send s.io.get_mut level
  (r.1, s.putInner r.2)

/-- src/lib.rs line 193: `fn write_data_terminal_ready(&mut self, ...)`. -/
def Serial.write_data_terminal_ready {δ : Type} (M : DeviceModel δ) (s : Serial δ)
    (level : Bool) : Except SPError Unit × Serial δ :=
  let r := M.write_data_terminal_ready s.io.get_mut level
  (r.1, s.putInner r.2)

/-- src/lib.rs line 197: `fn read_clear_to_send(&mut self)`. -/
def Serial.read_clear_to_send {δ : Type} (M : DeviceModel δ) (s : Serial δ) :
    Except SPError Bool × Serial δ :=
  let r := M.read_clear_to_send s.io.get_mut
  (r.1, s.putInner r.2)

/-- src/lib.rs line 201: `fn read_data_set_ready(&mut self)`. -/
def Serial.read_data_set_ready {δ : Type} (M : DeviceModel δ) (s : Serial δ) :
    Except SPError Bool × Serial δ :=
  let r := M.read_data_set_ready s.io.get_mut
  (r.1, s.putInner r.2)

/-- src/lib.rs line 205: `fn read_ring_indicator(&mut self)`. -/
def Serial.read_ring_indicator {δ : Type} (M : DeviceModel δ) (s : Serial δ) :
    Except SPError Bool × Serial δ :=
  let r := M.read_ring_indicator s.io.get_mut
  (r.1, s.putInner r.2)

/-- src/lib.rs line 209: `fn read_carrier_detect(&mut self)`. -/
def Serial.read_carrier_detect {δ : Type} (M : DeviceModel δ) (s : Serial δ) :
    Except SPError Bool × Serial δ :=
  let r := M.read_carrier_detect s.io.get_mut
  (r.1, s.putInner r.2)

/-- src/lib.rs line 213: `fn bytes_to_read(&self)` delegates to get_ref. -/
def Serial.bytes_to_read {δ : Type} (M : DeviceModel δ) (s : Serial δ) :
    Except SPError Nat :=
  M.bytes_to_read s.io.get_ref

/-- src/lib.rs line 217: `fn bytes_to_write(&self)` delegates to get_ref. -/
def Serial.bytes_to_write {δ : Type} (M : DeviceModel δ) (s : Serial δ) :
    Except SPError Nat :=
  M.bytes_to_write s.io.get_ref

/-- src/lib.rs line 221: `fn clear(&self, ...)` delegates to get_ref. -/
def Serial.clear {δ : Type} (M : DeviceModel δ) (s : Serial δ)
    (buffer_to_clear : ClearBuffer) : Except SPError Unit :=
  M.clear s.io.get_ref buffer_to_clear

/-- src/lib.rs line 225: `fn try_clone(&self)` delegates to get_ref. -/
def Serial.try_clone {δ : Type} (M : DeviceModel δ) (s : Serial δ) :
    Except SPError Nat :=
  M.try_clone s.io.get_ref

/-- Modelled from the spec: PollEvented's synchronous Read::read.  The
wrapper first consults the cached read readiness of the registered handle:
an unready handle yields a would-block error without touching the device
(this surface has no suspension mechanism); on a ready handle it delegates
to the device attempt, and a device-level would-block additionally clears
the cached readiness before being returned. -/
def PollEvented.read {δ : Type} (M : DeviceModel δ) (pe : PollEvented δ)
    (n : Nat) : Except IOError Nat × PollEvented δ :=
  if pe.readReady = false then
    (Except.error ⟨IOErrorKind.wouldBlock⟩, pe)
  else
    match M.read pe.inner n with
    | (Except.error e, d) =>
        if e.kind = IOErrorKind.wouldBlock then
          (Except.error e, { pe with inner := d, readReady := false })
        else
          (Except.error e, { pe with inner := d })
    | (Except.ok k, d) => (Except.ok k, { pe with inner := d })

/-- Modelled from the spec: PollEvented's synchronous Write::write,
symmetric to read over the write readiness. -/
def PollEvented.write {δ : Type} (M : DeviceModel δ) (pe : PollEvented δ)
    (buf : List Nat) : Except IOError Nat × PollEvented δ :=
  if pe.writeReady = false then
    (Except.error ⟨IOErrorKind.wouldBlock⟩, pe)
  else
    match M.write pe.inner buf with
    | (Except.error e, d) =>
        if e.kind = IOErrorKind.wouldBlock then
          (Except.error e, { pe with inner := d, writeReady := false })
        else
          (Except.error e, { pe with inner := d })
    | (Except.ok k, d) => (Except.ok k, { pe with inner := d })

/-- Modelled from the spec: PollEvented's synchronous Write::flush over the
write readiness, delegating to the device flush. -/
def PollEvented.flush {δ : Type} (M : DeviceModel δ) (pe : PollEvented δ) :
    Except IOError Unit × PollEvented δ :=
  if pe.writeReady = false then
    (Except.error ⟨IOErrorKind.wouldBlock⟩, pe)
  else
    match M.flush pe.inner with
    | (Except.error e, d) =>
        if e.kind = IOErrorKind.wouldBlock then
          (Except.error e, { pe with inner := d, writeReady := false })
        else
          (Except.error e, { pe with inner := d })
    | (Except.ok u, d) => (Except.ok u, { pe with inner := d })

/-- Modelled from the spec (section 4.3, section 7): the async read of the
readiness bridge.  It performs the synchronous attempt and absorbs a
would-block outcome into the suspension mechanism: the call resolves
`notReady` instead of surfacing the error.  Any other error propagates. -/
def PollEvented.poll_read {δ : Type} (M : DeviceModel δ) (pe : PollEvented δ)
    (n : Nat) : Except IOError (Poll Nat) × PollEvented δ :=
  match PollEvented.read M pe n with
  | (Except.ok k, pe2) => (Except.ok (Poll.ready k), pe2)
  | (Except.error e, pe2) =>
      if e.kind = IOErrorKind.wouldBlock then
        (Except.ok Poll.notReady, pe2)
      else
        (Except.error e, pe2)

/-- Modelled from the spec (section 4.3, section 7): the async write of the
readiness bridge, absorbing would-block into suspension. -/
def PollEvented.poll_write {δ : Type} (M : DeviceModel δ) (pe : PollEvented δ)
    (buf : List Nat) : Except IOError (Poll Nat) × PollEvented δ :=
  match PollEvented.write M pe buf with
  | (Except.ok k, pe2) => (Except.ok (Poll.ready k), pe2)
  | (Except.error e, pe2) =>
      if e.kind = IOErrorKind.wouldBlock then
        (Except.ok Poll.notReady, pe2)
      else
        (Except.error e, pe2)

/-- PollEvented's AsyncWrite::shutdown: it resolves ready immediately and
performs no state transition on the wrapper or the device. -/
def PollEvented.shutdown {δ : Type} (pe : PollEvented δ) :
    Except IOError (Poll Unit) × PollEvented δ :=
  (Except.ok (Poll.ready ()), pe)

/-- src/lib.rs lines 230-234: `impl Read for Serial` delegates to self.io. -/
def Serial.read {δ : Type} (M : DeviceModel δ) (s : Serial δ) (n : Nat) :
    Except IOError Nat × Serial δ :=
  let r := PollEvented.read M s.io n
  (r.1, ⟨r.2⟩)

/-- src/lib.rs lines 236-239: `impl Write for Serial`, write delegates to self.io. -/
def Serial.write {δ : Type} (M : DeviceModel δ) (s : Serial δ) (buf : List Nat) :
    Except IOError Nat × Serial δ :=
  let r := PollEvented.write M s.io buf
  (r.1, ⟨r.2⟩)

/-- src/lib.rs lines 241-243: flush delegates to self.io. -/
def Serial.flush {δ : Type} (M : DeviceModel δ) (s : Serial δ) :
    Except IOError Unit × Serial δ :=
  let r := PollEvented.flush M s.io
  (r.1, ⟨r.2⟩)

/-- src/lib.rs lines 255-259: `impl AsyncRead for Serial`, poll_read
delegates unconditionally to self.io.poll_read. -/
def Serial.poll_read {δ : Type} (M : DeviceModel δ) (s : Serial δ) (n : Nat) :
    Except IOError (Poll Nat) × Serial δ :=
  let r := PollEvented.poll_read M s.io n
  (r.1, ⟨r.2⟩)

/-- src/lib.rs lines 262-264: poll_write delegates unconditionally to
self.io.poll_write. -/
def Serial.poll_write {δ : Type} (M : DeviceModel δ) (s : Serial δ)
    (buf : List Nat) : Except IOError (Poll Nat) × Serial δ :=
  let r := PollEvented.poll_write M s.io buf
  (r.1, ⟨r.2⟩)

/-- src/lib.rs lines 266-268: `fn shutdown(&mut self)` delegates to
self.io.shutdown; the Serial struct has no field besides io, so no
shutdown flag is recorded anywhere. -/
def Serial.shutdown {δ : Type} (s : Serial δ) :
    Except IOError (Poll Unit) × Serial δ :=
  let r := PollEvented.shutdown s.io
  (r.1, ⟨r.2⟩)

/-- Target platform, distinguishing only whether cfg(unix) holds. -/
inductive Platform where
  | unix
  | windows
deriving DecidableEq

/-- src/lib.rs lines 113-116: `set_exclusive` is guarded by
`#[cfg(unix)]` — on a non-unix platform the method is not compiled and
cannot be called, which `none` models; on unix it delegates to the device. -/
def Serial.set_exclusive {δ : Type} (p : Platform) (M : DeviceModel δ)
    (s : Serial δ) (exclusive : Bool) :
    Option (Except SPError Unit × Serial δ) :=
  match p with
  | Platform.unix =>
      let r := M.set_exclusive s.io.get_mut exclusive
      some (r.1, s.putInner r.2)
  | Platform.windows => none

/-- src/lib.rs lines 122-125: `exclusive` is likewise cfg(unix)-guarded
and delegates to the device. -/
def Serial.exclusive {δ : Type} (p : Platform) (M : DeviceModel δ)
    (s : Serial δ) : Option Bool :=
  match p with
  | Platform.unix => some (M.exclusive s.io.get_ref)
  | Platform.windows => none

/-- Default configuration used by concrete device instances. -/
def defaultSettings : SerialPortSettings :=
  ⟨9600, DataBits.eight, FlowControl.none, Parity.none, StopBits.one, 0⟩

/-- Concrete device instance over the unit state: every operation succeeds
with a fixed value; read and write transfer one byte. -/
def unitModel : DeviceModel Unit where
  settings := fun _ => defaultSettings
  name := fun _ => Option.none
  baud_rate := fun _ => Except.ok 9600
  data_bits := fun _ => Except.ok DataBits.eight
  flow_control := fun _ => Except.ok FlowControl.none
  parity := fun _ => Except.ok Parity.none
  stop_bits := fun _ => Except.ok StopBits.one
  set_all := fun d _ => (Except.ok (), d)
  set_baud_rate := fun d _ => (Except.ok (), d)
  set_data_bits := fun d _ => (Except.ok (), d)
  set_flow_control := fun d _ => (Except.ok (), d)
  set_parity := fun d _ => (Except.ok (), d)
  set_stop_bits := fun d _ => (Except.ok (), d)
  write_request_to_send := fun d _ => (Except.ok (), d)
  write_data_terminal_ready := fun d _ => (Except.ok (), d)
  read_clear_to_send := fun d => (Except.ok false, d)
  read_data_set_ready := fun d => (Except.ok false, d)
  read_ring_indicator := fun d => (Except.ok false, d)
  read_carrier_detect := fun d => (Except.ok false, d)
  bytes_to_read := fun _ => Except.ok 0
  bytes_to_write := fun _ => Except.ok 0
  clear := fun _ _ => Except.ok ()
  try_clone := fun _ => Except.ok 0
  read := fun d _ => (Except.ok 1, d)
  write := fun d _ => (Except.ok 1, d)
  flush := fun d => (Except.ok (), d)
  set_exclusive := fun d _ => (Except.ok (), d)
  exclusive := fun _ => false

/-- Concrete device instance whose read, write and flush attempts always
report would-block. -/
def wbModel : DeviceModel Unit :=
  { unitModel with
    read := fun d _ => (Except.error ⟨IOErrorKind.wouldBlock⟩, d)
    write := fun d _ => (Except.error ⟨IOErrorKind.wouldBlock⟩, d)
    flush := fun d => (Except.error ⟨IOErrorKind.wouldBlock⟩, d) }

/-- A bridge over the unit device with both readiness flags set. -/
def sReady : Serial Unit :=
  ⟨⟨(), true, true⟩⟩

/-- A bridge over the unit device with both readiness flags cleared. -/
def sUnready : Serial Unit :=
  ⟨⟨(), false, false⟩⟩

/-- Modelled from the spec: a device handle produced by open-by-path or by
pair allocation (spec section 6 boundary): open records the configuration
it was given, and the configuration accessor reads it back. -/
structure DevHandle where
  id : Nat
  cfg : SerialPortSettings
deriving DecidableEq

/-- The concrete DeviceModel instance for DevHandle: configuration
operations act on the recorded settings record. -/
def devModel : DeviceModel DevHandle where
  settings := fun h => h.cfg
  name := fun _ => Option.none
  baud_rate := fun h => Except.ok h.cfg.baud_rate
  data_bits := fun h => Except.ok h.cfg.data_bits
  flow_control := fun h => Except.ok h.cfg.flow_control
  parity := fun h => Except.ok h.cfg.parity
  stop_bits := fun h => Except.ok h.cfg.stop_bits
  set_all := fun h c => (Except.ok (), { h with cfg := c })
  set_baud_rate := fun h b => (Except.ok (), { h with cfg := { h.cfg with baud_rate := b } })
  set_data_bits := fun h v => (Except.ok (), { h with cfg := { h.cfg with data_bits := v } })
  set_flow_control := fun h v => (Except.ok (), { h with cfg := { h.cfg with flow_control := v } })
  set_parity := fun h v => (Except.ok (), { h with cfg := { h.cfg with parity := v } })
  set_stop_bits := fun h v => (Except.ok (), { h with cfg := { h.cfg with stop_bits := v } })
  write_request_to_send := fun h _ => (Except.ok (), h)
  write_data_terminal_ready := fun h _ => (Except.ok (), h)
  read_clear_to_send := fun h => (Except.ok false, h)
  read_data_set_ready := fun h => (Except.ok false, h)
  read_ring_indicator := fun h => (Except.ok false, h)
  read_carrier_detect := fun h => (Except.ok false, h)
  bytes_to_read := fun _ => Except.ok 0
  bytes_to_write := fun _ => Except.ok 0
  clear := fun _ _ => Except.ok ()
  try_clone := fun h => Except.ok h.id
  read := fun h _ => (Except.ok 0, h)
  write := fun h _ => (Except.ok 0, h)
  flush := fun h => (Except.ok (), h)
  set_exclusive := fun h _ => (Except.ok (), h)
  exclusive := fun _ => false

/-- Resource-accounting world: the set of live OS handle ids and the set of
handle ids currently registered with the reactor; nextId allocates fresh
ids for newly opened handles. -/
structure World where
  opened : Finset Nat
  registered : Finset Nat
  nextId : Nat
deriving DecidableEq

/-- Well-formedness: every live or registered id was allocated below nextId,
so freshly allocated ids are not already present. -/
def World.WF (w : World) : Prop :=
  (∀ x ∈ w.opened, x < w.nextId) ∧ (∀ x ∈ w.registered, x < w.nextId)

instance (w : World) : Decidable w.WF := by
  unfold World.WF
  infer_instance

/-- Outcome oracle for the external collaborators: whether opening a given
path succeeds, whether OS pair allocation succeeds, and whether the reactor
accepts the registration of a given handle id. -/
structure Oracle where
  openOk : String → SerialPortSettings → Bool
  pairOk : Bool
  registerOk : Nat → Bool

/-- Modelled from the spec: mio_serial::Serial::from_path at the device
boundary.  On success a fresh handle recording the configuration becomes
live; on failure the world is untouched. -/
def deviceOpen (o : Oracle) (w : World) (path : String)
    (cfg : SerialPortSettings) : Except SPError DevHandle × World :=
  if o.openOk path cfg then
    (Except.ok ⟨w.nextId, cfg⟩,
     { w with opened := insert w.nextId w.opened, nextId := w.nextId + 1 })
  else
    (Except.error ⟨SPErrorKind.noDevice⟩, w)

/-- Modelled from the spec: mio_serial::Serial::pair at the OS boundary.
On success two fresh connected handles become live; on failure the world
is untouched. -/
def devicePair (o : Oracle) (w : World) :
    Except SPError (DevHandle × DevHandle) × World :=
  if o.pairOk then
    (Except.ok (⟨w.nextId, defaultSettings⟩, ⟨w.nextId + 1, defaultSettings⟩),
     { w with opened := insert (w.nextId + 1) (insert w.nextId w.opened),
              nextId := w.nextId + 2 })
  else
    (Except.error ⟨SPErrorKind.unknown⟩, w)

/-- Rust drop of a bare device handle: the OS handle is closed. -/
def dropDevice (h : DevHandle) (w : World) : World :=
  { w with opened := w.opened.erase h.id }

/-- Rust drop of a registered PollEvented (and hence of a Serial bridge):
deregisters from the reactor, then closes the handle. -/
def dropPollEvented (pe : PollEvented DevHandle) (w : World) : World :=
  { w with registered := w.registered.erase pe.inner.id,
           opened := w.opened.erase pe.inner.id }

/-- PollEvented::new: wraps a handle for the default reactor.  The function
is infallible (it returns PollEvented directly, registration being
deferred), so it has no error branch. -/
def PollEvented.new (h : DevHandle) : PollEvented DevHandle :=
  ⟨h, false, false⟩

/-- Modelled from the spec: PollEvented::new_with_handle registers the
handle with the given reactor.  If the reactor refuses the registration,
the handle that was moved into the constructor is dropped (closing it) and
no registration remains. -/
def PollEvented.new_with_handle (o : Oracle) (w : World) (h : DevHandle) :
    Except IOError (PollEvented DevHandle) × World :=
  if o.registerOk h.id then
    (Except.ok ⟨h, false, false⟩,
     { w with registered := insert h.id w.registered })
  else
    (Except.error ⟨IOErrorKind.other 2⟩, dropDevice h w)

/-- src/lib.rs lines 34-42: `Serial::from_path` opens the device (the `?`
converts a device error to io::Error), then wraps it with the infallible
PollEvented::new for the default reactor. -/
def Serial.from_path (o : Oracle) (w : World) (path : String)
    (cfg : SerialPortSettings) : Except IOError (Serial DevHandle) × World :=
  match deviceOpen o w path cfg with
  | (Except.error e, w1) => (Except.error e.toIoErr, w1)
  | (Except.ok h, w1) => (Except.ok ⟨PollEvented.new h⟩, w1)

/-- src/lib.rs lines 45-57: `Serial::from_path_with_handle` opens the
device, then registers it via PollEvented::new_with_handle, whose `?`
propagates a registration error. -/
def Serial.from_path_with_handle (o : Oracle) (w : World) (path : String)
    (cfg : SerialPortSettings) : Except IOError (Serial DevHandle) × World :=
  match deviceOpen o w path cfg with
  | (Except.error e, w1) => (Except.error e.toIoErr, w1)
  | (Except.ok h, w1) =>
      match PollEvented.new_with_handle o w1 h with
      | (Except.error e, w2) => (Except.error e, w2)
      | (Except.ok pe, w2) => (Except.ok ⟨pe⟩, w2)

/-- src/lib.rs lines 69-79: `Serial::pair` allocates the OS pair, then
wraps both sides with the infallible PollEvented::new. -/
def Serial.pair (o : Oracle) (w : World) :
    Except SPError (Serial DevHandle × Serial DevHandle) × World :=
  match devicePair o w with
  | (Except.error e, w1) => (Except.error e, w1)
  | (Except.ok (master, slave), w1) =>
      (Except.ok (⟨PollEvented.new master⟩, ⟨PollEvented.new slave⟩), w1)

/-- src/lib.rs lines 91-101: `Serial::pair_with_handle` allocates the OS
pair, registers the master, then the slave.  An early return through `?`
drops the locals still in scope: the bare slave handle if the master
registration fails, the built master bridge if the slave registration
fails (Rust drop glue at scope exit). -/
def Serial.pair_with_handle (o : Oracle) (w : World) :
    Except SPError (Serial DevHandle × Serial DevHandle) × World :=
  match devicePair o w with
  | (Except.error e, w1) => (Except.error e, w1)
  | (Except.ok (master, slave), w1) =>
      match PollEvented.new_with_handle o w1 master with
      | (Except.error e, w2) => (Except.error e.toSpErr, dropDevice slave w2)
      | (Except.ok peM, w2) =>
          match PollEvented.new_with_handle o w2 slave with
          | (Except.error e, w3) => (Except.error e.toSpErr, dropPollEvented peM w3)
          | (Except.ok peS, w3) => (Except.ok (⟨peM⟩, ⟨peS⟩), w3)

/-- True exactly on the error branch of an Except value. -/
def isErr {ε α : Type} : Except ε α → Bool
  | Except.error _ => true
  | Except.ok _ => false

/-- Concrete oracle where everything succeeds. -/
def oAllOk : Oracle :=
  ⟨fun _ _ => true, true, fun _ => true⟩

/-- Concrete oracle where open and pair succeed and every registration fails. -/
def oRegFail : Oracle :=
  ⟨fun _ _ => true, true, fun _ => false⟩

/-- Concrete oracle where only the registration of handle 0 succeeds, so in
a pair the master registers and the slave registration fails. -/
def oSlaveRegFail : Oracle :=
  ⟨fun _ _ => true, true, fun i => i == 0⟩

/-- The empty world: no live handles, no registrations. -/
def w0 : World :=
  ⟨∅, ∅, 0⟩

/-- C2: for every bridge state and every duration, the timeout query
returns the zero duration, and set_timeout returns success while leaving
the bridge state, including the reported timeout, unchanged. -/
theorem timeout_zero_set_timeout_noop {δ : Type} (s : Serial δ) (d : Duration) :
    Serial.timeout s = 0 ∧
    Serial.set_timeout s d = (Except.ok (), s) ∧
    Serial.timeout (Serial.set_timeout s d).2 = 0 :=
  ⟨rfl, rfl, rfl⟩

/-- C4: every device-configuration operation of the facade returns exactly
what the same operation on the owned device handle returns, and a mutating
operation changes nothing but the device component (readiness state
preserved, no added bridge state) — pure delegation, the timeout pair
aside. -/
theorem facade_pure_delegation {δ : Type} (M : DeviceModel δ) (s : Serial δ)
    (cfg : SerialPortSettings) (b : Nat) (db : DataBits) (fc : FlowControl)
    (p : Parity) (sb : StopBits) (lvl : Bool) (cb : ClearBuffer) :
    Serial.settings M s = M.settings s.io.inner ∧
    Serial.name M s = M.name s.io.inner ∧
    Serial.baud_rate M s = M.baud_rate s.io.inner ∧
    Serial.data_bits M s = M.data_bits s.io.inner ∧
    Serial.flow_control M s = M.flow_control s.io.inner ∧
    Serial.parity M s = M.parity s.io.inner ∧
    Serial.stop_bits M s = M.stop_bits s.io.inner ∧
    Serial.set_all M s cfg = ((M.set_all s.io.inner cfg).1, s.putInner (M.set_all s.io.inner cfg).2) ∧
    Serial.set_baud_rate M s b = ((M.set_baud_rate s.io.inner b).1, s.putInner (M.set_baud_rate s.io.inner b).2) ∧
    Serial.set_data_bits M s db = ((M.set_data_bits s.io.inner db).1, s.putInner (M.set_data_bits s.io.inner db).2) ∧
    Serial.set_flow_control M s fc = ((M.set_flow_control s.io.inner fc).1, s.putInner (M.set_flow_control s.io.inner fc).2) ∧
    Serial.set_parity M s p = ((M.set_parity s.io.inner p).1, s.putInner (M.set_parity s.io.inner p).2) ∧
    Serial.set_stop_bits M s sb = ((M.set_stop_bits s.io.inner sb).1, s.putInner (M.set_stop_bits s.io.inner sb).2) ∧
    Serial.write_request_to_send M s lvl = ((M.write_request_to_send s.io.inner lvl).1, s.putInner (M.write_request_to_send s.io.inner lvl).2) ∧
    Serial.write_data_terminal_ready M s lvl = ((M.write_data_terminal_ready s.io.inner lvl).1, s.putInner (M.write_data_terminal_ready s.io.inner lvl).2) ∧
    Serial.read_clear_to_send M s = ((M.read_clear_to_send s.io.inner).1, s.putInner (M.read_clear_to_send s.io.inner).2) ∧
    Serial.read_data_set_ready M s = ((M.read_data_set_ready s.io.inner).1, s.putInner (M.read_data_set_ready s.io.inner).2) ∧
    Serial.read_ring_indicator M s = ((M.read_ring_indicator s.io.inner).1, s.putInner (M.read_ring_indicator s.io.inner).2) ∧
    Serial.read_carrier_detect M s = ((M.read_carrier_detect s.io.inner).1, s.putInner (M.read_carrier_detect s.io.inner).2) ∧
    Serial.bytes_to_read M s = M.bytes_to_read s.io.inner ∧
    Serial.bytes_to_write M s = M.bytes_to_write s.io.inner ∧
    Serial.clear M s cb = M.clear s.io.inner cb ∧
    Serial.try_clone M s = M.try_clone s.io.inner ∧
    (Serial.set_baud_rate M s b).2.io.readReady = s.io.readReady ∧
    (Serial.set_baud_rate M s b).2.io.writeReady = s.io.writeReady :=
  ⟨rfl, rfl, rfl, rfl, rfl, rfl, rfl, rfl, rfl, rfl, rfl, rfl, rfl, rfl,
   rfl, rfl, rfl, rfl, rfl, rfl, rfl, rfl, rfl, rfl, rfl⟩

/-- C1 counterexample: on a ready bridge over a device with data, a
completed shutdown is followed by a poll_read and a poll_write that both
succeed — they do not fail, and in particular not with any
use-after-shutdown error. -/
theorem poll_read_after_shutdown_succeeds_cex :
    (Serial.shutdown sReady).1 = Except.ok (Poll.ready ()) ∧
    (Serial.poll_read unitModel (Serial.shutdown sReady).2 8).1 = Except.ok (Poll.ready 1) ∧
    (Serial.poll_write unitModel (Serial.shutdown sReady).2 [7]).1 = Except.ok (Poll.ready 1) :=
  ⟨rfl, rfl, rfl⟩

/-- C1 amended: shutdown always completes immediately (returns ready) and
leaves the bridge state unchanged; subsequent poll_read and poll_write
behave exactly as before the shutdown, delegating to the device handle —
no use-after-shutdown state or error exists in the code. -/
theorem shutdown_is_passthrough_state_unchanged {δ : Type} (M : DeviceModel δ)
    (s : Serial δ) (n : Nat) (buf : List Nat) :
    Serial.shutdown s = (Except.ok (Poll.ready ()), s) ∧
    Serial.poll_read M (Serial.shutdown s).2 n = Serial.poll_read M s n ∧
    Serial.poll_write M (Serial.shutdown s).2 buf = Serial.poll_write M s buf :=
  ⟨rfl, rfl, rfl⟩

/-- C8 counterexample: on a platform without the exclusivity primitive the
set_exclusive method is conditionally compiled out, so a call does not
exist at all — it cannot fail with an UnsupportedOperation error (no such
error kind exists in the taxonomy either). -/
theorem set_exclusive_absent_on_windows_cex :
    Serial.set_exclusive Platform.windows unitModel sReady true = none :=
  rfl

/-- C8 amended: on Unix set_exclusive delegates to the device handle; on a
platform without the primitive the method is absent (cfg(unix)), so no
call — succeeding or failing — is possible. -/
theorem set_exclusive_platform_behavior {δ : Type} (M : DeviceModel δ)
    (s : Serial δ) (b : Bool) :
    Serial.set_exclusive Platform.unix M s b =
      some ((M.set_exclusive s.io.inner b).1, s.putInner (M.set_exclusive s.io.inner b).2) ∧
    Serial.set_exclusive Platform.windows M s b = none :=
  ⟨rfl, rfl⟩

/-- Helper: the async read of the readiness wrapper never surfaces an
error of kind would-block. -/
theorem pollEvented_poll_read_not_wouldBlock {δ : Type} (M : DeviceModel δ)
    (pe : PollEvented δ) (n : Nat) :
    (PollEvented.poll_read M pe n).1 ≠ Except.error ⟨IOErrorKind.wouldBlock⟩ := by
  unfold PollEvented.poll_read
  rcases hr : PollEvented.read M pe n with ⟨r, pe2⟩
  rcases r with e | k
  · rcases e with ⟨k0⟩
    by_cases hk : k0 = IOErrorKind.wouldBlock
    · simp [hk]
    · simp [hk]
  · simp

/-- Helper: the async write of the readiness wrapper never surfaces an
error of kind would-block. -/
theorem pollEvented_poll_write_not_wouldBlock {δ : Type} (M : DeviceModel δ)
    (pe : PollEvented δ) (buf : List Nat) :
    (PollEvented.poll_write M pe buf).1 ≠ Except.error ⟨IOErrorKind.wouldBlock⟩ := by
  unfold PollEvented.poll_write
  rcases hr : PollEvented.write M pe buf with ⟨r, pe2⟩
  rcases r with e | k
  · rcases e with ⟨k0⟩
    by_cases hk : k0 = IOErrorKind.wouldBlock
    · simp [hk]
    · simp [hk]
  · simp

/-- Helper: with read readiness set, a device read attempt that reports
would-block resolves the async read as a suspension. -/
theorem pollEvented_poll_read_absorbs {δ : Type} (M : DeviceModel δ)
    (pe : PollEvented δ) (n : Nat) (h1 : pe.readReady = true)
    (h2 : (M.read pe.inner n).1 = Except.error ⟨IOErrorKind.wouldBlock⟩) :
    (PollEvented.poll_read M pe n).1 = Except.ok Poll.notReady := by
  unfold PollEvented.poll_read PollEvented.read
  rcases hr : M.read pe.inner n with ⟨r, d⟩
  rw [hr] at h2
  simp only at h2
  subst h2
  simp [h1]

/-- Helper: with write readiness set, a device write attempt that reports
would-block resolves the async write as a suspension. -/
theorem pollEvented_poll_write_absorbs {δ : Type} (M : DeviceModel δ)
    (pe : PollEvented δ) (buf : List Nat) (h1 : pe.writeReady = true)
    (h2 : (M.write pe.inner buf).1 = Except.error ⟨IOErrorKind.wouldBlock⟩) :
    (PollEvented.poll_write M pe buf).1 = Except.ok Poll.notReady := by
  unfold PollEvented.poll_write PollEvented.write
  rcases hr : M.write pe.inner buf with ⟨r, d⟩
  rw [hr] at h2
  simp only at h2
  subst h2
  simp [h1]

/-- C3: an async read or write on the bridge never resolves with a
would-block error, and when the readiness wrapper is ready and the device
attempt reports would-block, the call resolves as a suspension
(notReady) instead. -/
theorem poll_never_surfaces_would_block {δ : Type} (M : DeviceModel δ)
    (s : Serial δ) (n : Nat) (buf : List Nat) :
    (Serial.poll_read M s n).1 ≠ Except.error ⟨IOErrorKind.wouldBlock⟩ ∧
    (Serial.poll_write M s buf).1 ≠ Except.error ⟨IOErrorKind.wouldBlock⟩ ∧
    (s.io.readReady = true →
      (M.read s.io.inner n).1 = Except.error ⟨IOErrorKind.wouldBlock⟩ →
      (Serial.poll_read M s n).1 = Except.ok Poll.notReady) ∧
    (s.io.writeReady = true →
      (M.write s.io.inner buf).1 = Except.error ⟨IOErrorKind.wouldBlock⟩ →
      (Serial.poll_write M s buf).1 = Except.ok Poll.notReady) := by
  refine ⟨?_, ?_, ?_, ?_⟩
  · exact pollEvented_poll_read_not_wouldBlock M s.io n
  · exact pollEvented_poll_write_not_wouldBlock M s.io buf
  · intro h1 h2
    exact pollEvented_poll_read_absorbs M s.io n h1 h2
  · intro h1 h2
    exact pollEvented_poll_write_absorbs M s.io buf h1 h2

/-- C3 witness: over a ready bridge whose device always would-blocks, the
async read resolves as a suspension and is not a would-block error. -/
theorem poll_never_surfaces_would_block_witness :
    (Serial.poll_read wbModel sReady 4).1 = Except.ok Poll.notReady ∧
    (Serial.poll_read wbModel sReady 4).1 ≠ Except.error ⟨IOErrorKind.wouldBlock⟩ :=
  ⟨(poll_never_surfaces_would_block wbModel sReady 4 [3]).2.2.1 rfl rfl,
   (poll_never_surfaces_would_block wbModel sReady 4 [3]).1⟩

/-- C10: on the synchronous Read/Write surface of the bridge, a not-ready
handle is reported to the caller as an error of kind would-block —
surfaced, not absorbed into suspension. -/
theorem sync_surface_surfaces_would_block {δ : Type} (M : DeviceModel δ)
    (s : Serial δ) (n : Nat) (buf : List Nat)
    (hr : s.io.readReady = false) (hw : s.io.writeReady = false) :
    (Serial.read M s n).1 = Except.error ⟨IOErrorKind.wouldBlock⟩ ∧
    (Serial.write M s buf).1 = Except.error ⟨IOErrorKind.wouldBlock⟩ ∧
    (Serial.flush M s).1 = Except.error ⟨IOErrorKind.wouldBlock⟩ := by
  unfold Serial.read Serial.write Serial.flush
  unfold PollEvented.read PollEvented.write PollEvented.flush
  simp [hr, hw]

/-- C10 witness: the unready concrete bridge surfaces would-block on the
synchronous read. -/
theorem sync_surface_surfaces_would_block_witness :
    sUnready.io.readReady = false ∧
    (Serial.read unitModel sUnready 4).1 = Except.error ⟨IOErrorKind.wouldBlock⟩ :=
  ⟨rfl, (sync_surface_surfaces_would_block unitModel sUnready 4 [3] rfl rfl).1⟩

/-- C9: through the default-reactor constructors, registration is never
the failing step: from_path fails exactly when the device open fails and
pair fails exactly when the OS pair allocation fails, the wrap for the
default reactor being infallible. -/
theorem default_reactor_ctors_error_iff_os (o : Oracle) (w : World)
    (path : String) (cfg : SerialPortSettings) :
    isErr (Serial.from_path o w path cfg).1 = !o.openOk path cfg ∧
    isErr (Serial.pair o w).1 = !o.pairOk := by
  constructor
  · unfold Serial.from_path deviceOpen isErr
    by_cases h : o.openOk path cfg = true
    · simp [h]
    · simp [Bool.eq_false_iff.mpr h, h]
  · unfold Serial.pair devicePair isErr
    by_cases h : o.pairOk = true
    · simp [h]
    · simp [Bool.eq_false_iff.mpr h, h]

/-- C6: open-by-path is atomic on failure: whenever from_path or
from_path_with_handle returns an error, the set of live OS handles and the
set of reactor registrations are exactly what they were before the call —
no half-initialized bridge and no registration remains. -/
theorem from_path_atomic_on_error (o : Oracle) (w : World) (path : String)
    (cfg : SerialPortSettings) (hwf : w.WF) :
    (isErr (Serial.from_path o w path cfg).1 = true →
      (Serial.from_path o w path cfg).2 = w) ∧
    (isErr (Serial.from_path_with_handle o w path cfg).1 = true →
      (Serial.from_path_with_handle o w path cfg).2.opened = w.opened ∧
      (Serial.from_path_with_handle o w path cfg).2.registered = w.registered) := by
  have hn0 : w.nextId ∉ w.opened := fun hmem => lt_irrefl _ (hwf.1 _ hmem)
  constructor
  · unfold Serial.from_path deviceOpen
    by_cases h : o.openOk path cfg = true <;> simp [h, isErr]
  · unfold Serial.from_path_with_handle deviceOpen PollEvented.new_with_handle dropDevice
    by_cases h : o.openOk path cfg = true
    · by_cases h2 : o.registerOk w.nextId = true
      · simp [h, h2, isErr]
      · simp [h, h2, isErr, Finset.erase_insert hn0]
    · simp [h, isErr]

/-- C6 witness: with an oracle whose registration always fails, the
registered open rolls back to the starting world. -/
theorem from_path_atomic_on_error_witness :
    isErr (Serial.from_path_with_handle oRegFail w0 "dev" defaultSettings).1 = true ∧
    (Serial.from_path_with_handle oRegFail w0 "dev" defaultSettings).2.opened = w0.opened ∧
    (Serial.from_path_with_handle oRegFail w0 "dev" defaultSettings).2.registered = w0.registered :=
  ⟨rfl, (from_path_atomic_on_error oRegFail w0 "dev" defaultSettings (by decide)).2 rfl⟩

/-- C5: when the open-pair operation returns an error, nothing created
during the call stays live: pair leaves the world untouched, and
pair_with_handle — including the partial-failure path where one side was
built and registered before the other side's registration failed — ends
with the live handle set and the registration set it started with. -/
theorem pair_rollback_on_error (o : Oracle) (w : World) (hwf : w.WF) :
    (isErr (Serial.pair o w).1 = true → (Serial.pair o w).2 = w) ∧
    (isErr (Serial.pair_with_handle o w).1 = true →
      (Serial.pair_with_handle o w).2.opened = w.opened ∧
      (Serial.pair_with_handle o w).2.registered = w.registered) := by
  have hn0 : w.nextId ∉ w.opened := fun hmem => lt_irrefl _ (hwf.1 _ hmem)
  have hn1 : w.nextId + 1 ∉ w.opened := fun hmem => by
    have := hwf.1 _ hmem
    omega
  have hr0 : w.nextId ∉ w.registered := fun hmem => lt_irrefl _ (hwf.2 _ hmem)
  have hne : w.nextId + 1 ≠ w.nextId := by omega
  have hn1m : w.nextId + 1 ∉ insert w.nextId w.opened := by
    simp only [Finset.mem_insert, hne, false_or]
    exact hn1
  constructor
  · unfold Serial.pair devicePair
    by_cases h : o.pairOk = true <;> simp [h, isErr]
  · unfold Serial.pair_with_handle devicePair PollEvented.new_with_handle
    unfold dropDevice dropPollEvented
    by_cases h : o.pairOk = true
    · by_cases h2 : o.registerOk w.nextId = true
      · by_cases h3 : o.registerOk (w.nextId + 1) = true
        · simp [h, h2, h3, isErr]
        · simp [h, h2, h3, isErr, Finset.erase_insert hn1m,
            Finset.erase_insert hn0, Finset.erase_insert hr0]
      · simp [h, h2, isErr, Finset.erase_insert_of_ne hne,
          Finset.erase_insert hn0, Finset.erase_insert hn1]
    · simp [h, isErr]

/-- C5 witness: with an oracle where the master registers but the slave
registration fails, the pair open rolls back to the starting world. -/
theorem pair_rollback_on_error_witness :
    isErr (Serial.pair_with_handle oSlaveRegFail w0).1 = true ∧
    (Serial.pair_with_handle oSlaveRegFail w0).2.opened = w0.opened ∧
    (Serial.pair_with_handle oSlaveRegFail w0).2.registered = w0.registered :=
  ⟨rfl, (pair_rollback_on_error oSlaveRegFail w0 (by decide)).2 rfl⟩

/-- C7: opening a bridge by path with a configuration and immediately
reading the configuration back through the facade yields exactly the
configuration that was passed to open. -/
theorem open_settings_roundtrip (o : Oracle) (w : World) (path : String)
    (cfg : SerialPortSettings) (b : Serial DevHandle) (w2 : World)
    (h : Serial.from_path o w path cfg = (Except.ok b, w2)) :
    Serial.settings devModel b = cfg := by
  unfold Serial.from_path deviceOpen at h
  by_cases ho : o.openOk path cfg = true
  · simp only [ho, if_true] at h
    injection h with h1 h2
    injection h1 with hb
    subst hb
    rfl
  · simp [ho] at h

/-- C7 witness: a concrete successful open followed by a settings read
returns the configuration just set. -/
theorem open_settings_roundtrip_witness :
    Serial.settings devModel ⟨PollEvented.new ⟨0, defaultSettings⟩⟩ = defaultSettings :=
  open_settings_roundtrip oAllOk w0 "dev" defaultSettings
    ⟨PollEvented.new ⟨0, defaultSettings⟩⟩ ⟨insert 0 ∅, ∅, 1⟩ rfl

end TokioSerial
